import Mathlib

/-!
Verification of the ENS160 I2C gas-sensor driver (src/ENS160.ts).

The driver is a thin protocol layer over a register-oriented two-wire bus.
Every method issues a short sequence of register reads/writes and decodes
fixed-width binary responses.  We embed it shallowly: the bus is an oracle
(`Bus`) deciding each read's bytes and each transfer's success, and a driver
method is a function `Bus → List Ev × Except Err α` returning the ordered
trace of bus-visible events it performed together with its outcome.  JS
`number` arguments of the compensation setters are modelled as exact
rationals (`ℚ`); all byte and register arithmetic is `Nat`/`Int` with
explicit two's-complement adjustments where the source uses signed Buffer
reads.
-/

namespace ENS160

/-! ## Register map and protocol constants (src/ENS160.ts lines 10-38) -/

def ENS160_I2CADDR : Nat := 0x53
def ENS160_PARTID : Int := 0x0160
def ENS160_CMD_PARTID : Nat := 0x00
def ENS160_CMD_OPMODE : Nat := 0x10
def ENS160_CMD_COMMAND : Nat := 0x12
def ENS160_CMD_TEMPIN : Nat := 0x13
def ENS160_CMD_RHIN : Nat := 0x15
def ENS160_CMD_STATUS : Nat := 0x20
def ENS160_CMD_AQI : Nat := 0x21
def ENS160_CMD_TVOC : Nat := 0x22
def ENS160_CMD_ECO2 : Nat := 0x24
def ENS160_CMD_READGPR : Nat := 0x48

def MODE_SLEEP : Int := 0x00
def MODE_IDLE : Int := 0x01
def MODE_STANDARD : Int := 0x02
def MODE_RESET : Int := 0xf0

/-- VALID_MODES of src/ENS160.ts lines 29-34 (written with cons cells because
the bracket-MODE juxtaposition collides with an unrelated Mathlib token). -/
def VALID_MODES : List Int :=
  MODE_SLEEP :: MODE_IDLE :: MODE_STANDARD :: MODE_RESET :: []

def COMMAND_NOP : Nat := 0x00
def COMMAND_CLRGPR : Nat := 0xcc
def COMMAND_GETAPPVER : Nat := 0x0e

/-! ## Errors, bus events, and the driver monad -/

deriving instance DecidableEq for Except

/-- Failure kinds of the driver.  `bus` is a transport failure propagated
from the i2c gateway (spec's BusError); `invalidMode m` is the
`Invalid mode: ...` Error of setMode; `identityMismatch` is the thrown
string `Could not locate ENS160!` of check; `deviceNotDetected` is the
thrown string `Could not detect!` of init. -/
inductive Err where
  | bus (code : Nat)
  | invalidMode (m : Int)
  | identityMismatch
  | deviceNotDetected
  deriving DecidableEq

/-- Bus-visible steps: an attempted block write, an attempted block read,
and a sleep (settle wait). -/
inductive Ev where
  | write (addr reg : Nat) (bytes : List Nat)
  | read (addr reg : Nat) (len : Nat)
  | wait (ms : Nat)
  deriving DecidableEq

/-- Oracle for the i2c gateway: decides the bytes each read returns and
whether each transfer succeeds.  Transport failures carry a numeric code. -/
structure Bus where
  readB : Nat → Nat → Nat → Except Nat (List Nat)
  writeB : Nat → Nat → List Nat → Except Nat Unit

/-- Driver computation: runs against a bus, returns the ordered trace of
bus-visible events it performed and its outcome. -/
def M (α : Type) : Type := Bus → List Ev × Except Err α

def pureM {α : Type} (a : α) : M α := fun _ => ([], Except.ok a)

def bindM {α β : Type} (x : M α) (f : α → M β) : M β := fun bus =>
  match x bus with
  | (tr, Except.ok a) =>
      let r := f a bus
      (tr ++ r.1, r.2)
  | (tr, Except.error e) => (tr, Except.error e)

instance instMonadM : Monad M where
  pure := pureM
  bind := bindM

def throwM {α : Type} (e : Err) : M α := fun _ => ([], Except.error e)

/-- Model of `this.bus.writeI2cBlock(addr, reg, bytes.length, buf)`.  The
attempt is always bus-visible; a transport failure surfaces as `Err.bus`. -/
def busWrite (addr reg : Nat) (bytes : List Nat) : M Unit := fun bus =>
  ([Ev.write addr reg bytes],
    match bus.writeB addr reg bytes with
    | Except.ok _ => Except.ok ()
    | Except.error e => Except.error (Err.bus e))

/-- Model of `this.bus.readI2cBlock(addr, reg, len, Buffer.alloc(len))`:
returns the bytes chosen by the oracle. -/
def busRead (addr reg len : Nat) : M (List Nat) := fun bus =>
  ([Ev.read addr reg len],
    match bus.readB addr reg len with
    | Except.ok bs => Except.ok bs
    | Except.error e => Except.error (Err.bus e))

/-- Model of `sleep(ms)` (src/ENS160.ts lines 467-473). -/
def sleepM (ms : Nat) : M Unit := fun _ => ([Ev.wait ms], Except.ok ())

/-! ## Buffer decoding helpers -/

/-- Little-endian value of a byte list (byte 0 is least significant). -/
def leBytesVal : List Nat → Nat
  | [] => 0
  | b :: rest => b + 256 * leBytesVal rest

/-- Node's `buffer.readIntLE(0, len)`: little-endian SIGNED (two's
complement) integer of `len` bytes.  Bytes past the end of the list stand
for the zero fill of the allocated buffer. -/
def readIntLE (bs : List Nat) (len : Nat) : Int :=
  let u := leBytesVal (bs.take len)
  if u < 2 ^ (8 * len - 1) then (u : Int) else (u : Int) - 2 ^ (8 * len)

/-- Node's `buffer.readInt8()`: byte 0 as a signed 8-bit integer. -/
def readInt8 (bs : List Nat) : Int :=
  let b := bs.headD 0
  if b < 128 then (b : Int) else (b : Int) - 256

/-- Character at index `i` (0-based, most significant first) of
`b.toString(2).padStart(8, "0")`, as the digit 0 or 1: for a byte value
this is bit `7 - i` of `b`. -/
def binChar (b i : Nat) : Nat := b / 2 ^ (7 - i) % 2

inductive StatusType where
  | normal
  | warmup
  | startup
  | invalid
  deriving DecidableEq

structure StatusResult where
  opmode : Bool
  error : Bool
  status : StatusType
  deriving DecidableEq

/-- Decoding of the status byte (src/ENS160.ts lines 434-458): the source
binarises the byte as an 8-character string, takes characters 0 and 1 for
the flags and `parseInt` of the single character at index 4 for the switch
that picks the validity value (default, kept by fall-through, is
`invalid`). -/
def decodeStatusByte (b : Nat) : StatusResult :=
  let opmode := binChar b 0 == 1
  let error := binChar b 1 == 1
  let status :=
    match binChar b 4 with
    | 0 => StatusType.normal
    | 1 => StatusType.warmup
    | 2 => StatusType.startup
    | 3 => StatusType.invalid
    | _ => StatusType.invalid
  ⟨opmode, error, status⟩

/-! ## The hex-string Buffer conversion used by the compensation setters

`Buffer.from(k.toString(16), "hex")` renders `k` as a minimal hex string
(most significant digit first) and decodes consecutive digit PAIRS to
bytes, dropping a trailing unpaired digit; a negative `k` renders with a
leading minus sign, which the hex decoder rejects immediately, giving an
empty buffer. -/

/-- Hex digits of `n`, most significant first (fuel-structured so it
kernel-reduces; `fuel ≥ n` suffices since `n` shrinks 16-fold per step). -/
def natHexDigitsAux : Nat → Nat → List Nat
  | 0, _ => []
  | _ + 1, 0 => []
  | fuel + 1, n + 1 => natHexDigitsAux fuel ((n + 1) / 16) ++ [(n + 1) % 16]

/-- Digits of `n.toString(16)`: minimal, most significant first, and `0`
itself renders as the single digit 0. -/
def natHexDigits (n : Nat) : List Nat :=
  if n = 0 then [0] else natHexDigitsAux n n

/-- Node's hex decoding: consecutive digit pairs become bytes, a trailing
unpaired digit is dropped. -/
def hexPairsToBytes : List Nat → List Nat
  | d0 :: d1 :: rest => (16 * d0 + d1) :: hexPairsToBytes rest
  | _ => []

/-- Bytes of `Buffer.from(k.toString(16), "hex")`. -/
def jsHexBuffer (k : Int) : List Nat :=
  if k < 0 then [] else hexPairsToBytes (natHexDigits k.toNat)

/-! ## Driver operations (src/ENS160.ts) -/

/-- setMode (src/ENS160.ts lines 123-141): reject a target outside
VALID_MODES before any bus access, else write the single mode byte to the
OPMODE register and settle 10 ms. -/
def setMode (mode : Int) : M Bool := do
  if mode ∈ VALID_MODES then
    busWrite ENS160_I2CADDR ENS160_CMD_OPMODE [mode.toNat]
    sleepM 10
    pure true
  else
    throwM (Err.invalidMode mode)

/-- getMode (src/ENS160.ts lines 148-161): one-byte read of OPMODE,
returned through `readInt8` (signed) with no validation. -/
def getMode : M Int := do
  let bs ← busRead ENS160_I2CADDR ENS160_CMD_OPMODE 1
  pure (readInt8 bs)

/-- check (src/ENS160.ts lines 168-184): two-byte read of PART_ID,
compared as `readIntLE(0, 2)` against ENS160_PARTID. -/
def check : M Bool := do
  let bs ← busRead ENS160_I2CADDR ENS160_CMD_PARTID 2
  if readIntLE bs 2 ≠ ENS160_PARTID then
    throwM Err.identityMismatch
  else
    pure true

/-- clear_command (src/ENS160.ts lines 191-210): NOP write, CLRGPR write,
10 ms settle. -/
def clear_command : M Bool := do
  busWrite ENS160_I2CADDR ENS160_CMD_COMMAND [COMMAND_NOP]
  busWrite ENS160_I2CADDR ENS160_CMD_COMMAND [COMMAND_CLRGPR]
  sleepM 10
  pure true

/-- read_gpr (src/ENS160.ts lines 217-229): eight-byte read of the
general-purpose register bank. -/
def read_gpr : M (List Nat) := do
  let bs ← busRead ENS160_I2CADDR ENS160_CMD_READGPR 8
  pure bs

/-- reset (src/ENS160.ts lines 108-115). -/
def reset : M Bool := do
  let _ ← setMode MODE_RESET
  pure true

/-- firmware_version (src/ENS160.ts lines 236-262): save mode, force Idle,
clear command, wait, issue GETAPPVER, read the bank, restore the saved
mode, format bytes 4, 5, 6 as the dotted version string.  The restore
happens only on this success path: the catch block rethrows without it. -/
def firmware_version : M String := do
  let curr ← getMode
  let _ ← setMode MODE_IDLE
  let _ ← clear_command
  sleepM 10
  busWrite ENS160_I2CADDR ENS160_CMD_COMMAND [COMMAND_GETAPPVER]
  let ret ← read_gpr
  let _ ← setMode curr
  pure (toString (ret.getD 4 0) ++ "." ++ toString (ret.getD 5 0) ++ "."
    ++ toString (ret.getD 6 0))

/-- temperature_compensation (src/ENS160.ts lines 270-286):
`k64 = Math.ceil((temp_c + 273.15) * 64.0)` and the bytes of
`Buffer.from(k64.toString(16), "hex")` written to TEMP_IN.  The JS number
argument is modelled as an exact rational. -/
def temperature_compensation (temp_c : ℚ) : M Bool := do
  busWrite ENS160_I2CADDR ENS160_CMD_TEMPIN (jsHexBuffer ⌈(temp_c + 273.15) * 64⌉)
  pure true

/-- humidity_compensation (src/ENS160.ts lines 316-332):
`k64 = Math.ceil(humidity * 512)`, hex-buffer bytes written to RH_IN. -/
def humidity_compensation (humidity : ℚ) : M Bool := do
  busWrite ENS160_I2CADDR ENS160_CMD_RHIN (jsHexBuffer ⌈humidity * 512⌉)
  pure true

/-- init (src/ENS160.ts lines 79-101): startup settle, reset, identity
check (throwing `Could not detect!` if check were to return false), Idle,
clear command, Standard, default compensation 25 °C and 50 %RH. -/
def init : M Bool := do
  sleepM 20
  let _ ← reset
  let c ← check
  if !c then
    throwM (α := Unit) Err.deviceNotDetected
  let _ ← setMode MODE_IDLE
  let _ ← clear_command
  let _ ← setMode MODE_STANDARD
  let _ ← temperature_compensation 25
  let _ ← humidity_compensation 50
  pure true

/-- AQI (src/ENS160.ts lines 361-374): one-byte read decoded with
`readIntLE(0, bytesRead)`. -/
def AQI : M Int := do
  let bs ← busRead ENS160_I2CADDR ENS160_CMD_AQI 1
  pure (readIntLE bs bs.length)

/-- ECO2 (src/ENS160.ts lines 381-394): two-byte read decoded with
`readIntLE(0, bytesRead)`. -/
def ECO2 : M Int := do
  let bs ← busRead ENS160_I2CADDR ENS160_CMD_ECO2 2
  pure (readIntLE bs bs.length)

/-- TVOC (src/ENS160.ts lines 401-414): two-byte read decoded with
`readIntLE(0, bytesRead)`. -/
def TVOC : M Int := do
  let bs ← busRead ENS160_I2CADDR ENS160_CMD_TVOC 2
  pure (readIntLE bs bs.length)

/-- status (src/ENS160.ts lines 421-462): one-byte read of STATUS decoded
by `decodeStatusByte`. -/
def status : M StatusResult := do
  let bs ← busRead ENS160_I2CADDR ENS160_CMD_STATUS 1
  pure (decodeStatusByte (bs.headD 0))

/-! ## Definitions taken from the spec's words (for refinement comparison) -/

/-- Modelled from the spec (§3): temperature encoding
`round((°C + 273.15) × 64)` as an unsigned 16-bit little-endian byte pair. -/
def specTempCompBytes (t : ℚ) : List Nat :=
  let v := (round ((t + 273.15) * 64) : Int).toNat % 65536
  [v % 256, v / 256]

/-- Modelled from the spec (§3): humidity encoding `round(%RH × 512)` as an
unsigned 16-bit little-endian byte pair. -/
def specHumCompBytes (h : ℚ) : List Nat :=
  let v := (round (h * 512) : Int).toNat % 65536
  [v % 256, v / 256]

/-- Modelled from the spec (§3): validity status drawn from bits 3-2 of the
status byte, mapped 0 = Normal, 1 = Warmup, 2 = Startup, 3 = Invalid. -/
def specValidity (b : Nat) : StatusType :=
  match b / 4 % 4 with
  | 0 => StatusType.normal
  | 1 => StatusType.warmup
  | 2 => StatusType.startup
  | _ => StatusType.invalid

/-! ## Run lemmas for the monad -/

theorem run_bind {α β : Type} (x : M α) (f : α → M β) (bus : Bus) :
    (x >>= f) bus =
      match x bus with
      | (tr, Except.ok a) => (tr ++ (f a bus).1, (f a bus).2)
      | (tr, Except.error e) => (tr, Except.error e) := by
  show bindM x f bus = _
  rcases h : x bus with ⟨tr, r⟩
  cases r <;> simp [bindM, h]

theorem run_pure {α : Type} (a : α) (bus : Bus) :
    (pure a : M α) bus = ([], Except.ok a) := rfl

/-! ## Concrete encoding values used by init's default compensation -/

theorem ceil_temp25 : (⌈(((25 : ℚ) + 273.15) * 64 : ℚ)⌉ : ℤ) = 19082 := by
  norm_num [Int.ceil_eq_iff]

theorem ceil_hum50 : (⌈((50 : ℚ) * 512 : ℚ)⌉ : ℤ) = 25600 := by
  norm_num

theorem temp25_bytes : jsHexBuffer ⌈(((25 : ℚ) + 273.15) * 64 : ℚ)⌉ = [74, 138] := by
  rw [ceil_temp25]; decide

theorem hum50_bytes : jsHexBuffer ⌈((50 : ℚ) * 512 : ℚ)⌉ = [100, 0] := by
  rw [ceil_hum50]; decide

/-! ## Run equations for each operation -/

theorem setMode_run (m : Int) (bus : Bus) :
    setMode m bus =
      if m ∈ VALID_MODES then
        match bus.writeB ENS160_I2CADDR ENS160_CMD_OPMODE [m.toNat] with
        | Except.ok _ =>
            ([Ev.write ENS160_I2CADDR ENS160_CMD_OPMODE [m.toNat], Ev.wait 10],
              Except.ok true)
        | Except.error e =>
            ([Ev.write ENS160_I2CADDR ENS160_CMD_OPMODE [m.toNat]],
              Except.error (Err.bus e))
      else ([], Except.error (Err.invalidMode m)) := by
  by_cases hm : m ∈ VALID_MODES
  · cases h : bus.writeB ENS160_I2CADDR ENS160_CMD_OPMODE [m.toNat] <;>
      simp [setMode, hm, run_bind, busWrite, sleepM, run_pure, h]
  · simp [setMode, hm, throwM]

theorem getMode_run (bus : Bus) :
    getMode bus =
      match bus.readB ENS160_I2CADDR ENS160_CMD_OPMODE 1 with
      | Except.ok bs =>
          ([Ev.read ENS160_I2CADDR ENS160_CMD_OPMODE 1], Except.ok (readInt8 bs))
      | Except.error e =>
          ([Ev.read ENS160_I2CADDR ENS160_CMD_OPMODE 1], Except.error (Err.bus e)) := by
  cases h : bus.readB ENS160_I2CADDR ENS160_CMD_OPMODE 1 <;>
    simp [getMode, run_bind, busRead, run_pure, h]

theorem check_run (bus : Bus) :
    check bus =
      match bus.readB ENS160_I2CADDR ENS160_CMD_PARTID 2 with
      | Except.ok bs =>
          if readIntLE bs 2 ≠ ENS160_PARTID then
            ([Ev.read ENS160_I2CADDR ENS160_CMD_PARTID 2], Except.error Err.identityMismatch)
          else
            ([Ev.read ENS160_I2CADDR ENS160_CMD_PARTID 2], Except.ok true)
      | Except.error e =>
          ([Ev.read ENS160_I2CADDR ENS160_CMD_PARTID 2], Except.error (Err.bus e)) := by
  cases h : bus.readB ENS160_I2CADDR ENS160_CMD_PARTID 2 with
  | error e => simp [check, run_bind, busRead, run_pure, h]
  | ok bs =>
      by_cases hv : readIntLE bs 2 = ENS160_PARTID <;>
        simp [check, run_bind, busRead, run_pure, throwM, h, hv]

theorem clear_command_run (bus : Bus) :
    clear_command bus =
      match bus.writeB ENS160_I2CADDR ENS160_CMD_COMMAND [COMMAND_NOP] with
      | Except.error e =>
          ([Ev.write ENS160_I2CADDR ENS160_CMD_COMMAND [COMMAND_NOP]],
            Except.error (Err.bus e))
      | Except.ok _ =>
          match bus.writeB ENS160_I2CADDR ENS160_CMD_COMMAND [COMMAND_CLRGPR] with
          | Except.error e =>
              ([Ev.write ENS160_I2CADDR ENS160_CMD_COMMAND [COMMAND_NOP],
                Ev.write ENS160_I2CADDR ENS160_CMD_COMMAND [COMMAND_CLRGPR]],
                Except.error (Err.bus e))
          | Except.ok _ =>
              ([Ev.write ENS160_I2CADDR ENS160_CMD_COMMAND [COMMAND_NOP],
                Ev.write ENS160_I2CADDR ENS160_CMD_COMMAND [COMMAND_CLRGPR],
                Ev.wait 10], Except.ok true) := by
  cases h1 : bus.writeB ENS160_I2CADDR ENS160_CMD_COMMAND [COMMAND_NOP] with
  | error e => simp [clear_command, run_bind, busWrite, sleepM, run_pure, h1]
  | ok u =>
      cases h2 : bus.writeB ENS160_I2CADDR ENS160_CMD_COMMAND [COMMAND_CLRGPR] <;>
        simp [clear_command, run_bind, busWrite, sleepM, run_pure, h1, h2]

theorem read_gpr_run (bus : Bus) :
    read_gpr bus =
      match bus.readB ENS160_I2CADDR ENS160_CMD_READGPR 8 with
      | Except.ok bs =>
          ([Ev.read ENS160_I2CADDR ENS160_CMD_READGPR 8], Except.ok bs)
      | Except.error e =>
          ([Ev.read ENS160_I2CADDR ENS160_CMD_READGPR 8], Except.error (Err.bus e)) := by
  cases h : bus.readB ENS160_I2CADDR ENS160_CMD_READGPR 8 <;>
    simp [read_gpr, run_bind, busRead, run_pure, h]

theorem reset_run (bus : Bus) :
    reset bus =
      match bus.writeB ENS160_I2CADDR ENS160_CMD_OPMODE [240] with
      | Except.ok _ =>
          ([Ev.write ENS160_I2CADDR ENS160_CMD_OPMODE [240], Ev.wait 10], Except.ok true)
      | Except.error e =>
          ([Ev.write ENS160_I2CADDR ENS160_CMD_OPMODE [240]], Except.error (Err.bus e)) := by
  have hm : MODE_RESET ∈ VALID_MODES := by decide
  have ht : MODE_RESET.toNat = 240 := by decide
  cases h : bus.writeB ENS160_I2CADDR ENS160_CMD_OPMODE [240] <;>
    simp [reset, run_bind, run_pure, setMode_run, hm, ht, h]

theorem temperature_compensation_run (t : ℚ) (bus : Bus) :
    temperature_compensation t bus =
      match bus.writeB ENS160_I2CADDR ENS160_CMD_TEMPIN (jsHexBuffer ⌈(t + 273.15) * 64⌉) with
      | Except.ok _ =>
          ([Ev.write ENS160_I2CADDR ENS160_CMD_TEMPIN (jsHexBuffer ⌈(t + 273.15) * 64⌉)],
            Except.ok true)
      | Except.error e =>
          ([Ev.write ENS160_I2CADDR ENS160_CMD_TEMPIN (jsHexBuffer ⌈(t + 273.15) * 64⌉)],
            Except.error (Err.bus e)) := by
  cases h : bus.writeB ENS160_I2CADDR ENS160_CMD_TEMPIN (jsHexBuffer ⌈(t + 273.15) * 64⌉) <;>
    simp [temperature_compensation, run_bind, busWrite, run_pure, h]

theorem humidity_compensation_run (h : ℚ) (bus : Bus) :
    humidity_compensation h bus =
      match bus.writeB ENS160_I2CADDR ENS160_CMD_RHIN (jsHexBuffer ⌈h * 512⌉) with
      | Except.ok _ =>
          ([Ev.write ENS160_I2CADDR ENS160_CMD_RHIN (jsHexBuffer ⌈h * 512⌉)], Except.ok true)
      | Except.error e =>
          ([Ev.write ENS160_I2CADDR ENS160_CMD_RHIN (jsHexBuffer ⌈h * 512⌉)],
            Except.error (Err.bus e)) := by
  cases hw : bus.writeB ENS160_I2CADDR ENS160_CMD_RHIN (jsHexBuffer ⌈h * 512⌉) <;>
    simp [humidity_compensation, run_bind, busWrite, run_pure, hw]

/-- The complete ordered list of bus-visible steps of a fully successful
`init`: startup wait, Reset-mode write and settle, identity read, Idle-mode
write and settle, NOP and CLRGPR command writes and settle, Standard-mode
write and settle, default temperature write (25 °C encodes to bytes
74, 138) and default humidity write (50 %RH encodes to bytes 100, 0). -/
def initFullTrace : List Ev :=
  [Ev.wait 20,
   Ev.write ENS160_I2CADDR ENS160_CMD_OPMODE [240], Ev.wait 10,
   Ev.read ENS160_I2CADDR ENS160_CMD_PARTID 2,
   Ev.write ENS160_I2CADDR ENS160_CMD_OPMODE [1], Ev.wait 10,
   Ev.write ENS160_I2CADDR ENS160_CMD_COMMAND [0],
   Ev.write ENS160_I2CADDR ENS160_CMD_COMMAND [204], Ev.wait 10,
   Ev.write ENS160_I2CADDR ENS160_CMD_OPMODE [2], Ev.wait 10,
   Ev.write ENS160_I2CADDR ENS160_CMD_TEMPIN [74, 138],
   Ev.write ENS160_I2CADDR ENS160_CMD_RHIN [100, 0]]

/-- Complete case analysis of `init` over the eight bus transfers it can
attempt, in their program order.  Every outcome's trace is an initial
segment of `initFullTrace`. -/
theorem init_run (bus : Bus) :
    init bus =
      match bus.writeB ENS160_I2CADDR ENS160_CMD_OPMODE [240] with
      | Except.error e => (initFullTrace.take 2, Except.error (Err.bus e))
      | Except.ok _ =>
        match bus.readB ENS160_I2CADDR ENS160_CMD_PARTID 2 with
        | Except.error e => (initFullTrace.take 4, Except.error (Err.bus e))
        | Except.ok bs =>
          if readIntLE bs 2 ≠ ENS160_PARTID then
            (initFullTrace.take 4, Except.error Err.identityMismatch)
          else
            match bus.writeB ENS160_I2CADDR ENS160_CMD_OPMODE [1] with
            | Except.error e => (initFullTrace.take 5, Except.error (Err.bus e))
            | Except.ok _ =>
              match bus.writeB ENS160_I2CADDR ENS160_CMD_COMMAND [0] with
              | Except.error e => (initFullTrace.take 7, Except.error (Err.bus e))
              | Except.ok _ =>
                match bus.writeB ENS160_I2CADDR ENS160_CMD_COMMAND [204] with
                | Except.error e => (initFullTrace.take 8, Except.error (Err.bus e))
                | Except.ok _ =>
                  match bus.writeB ENS160_I2CADDR ENS160_CMD_OPMODE [2] with
                  | Except.error e => (initFullTrace.take 10, Except.error (Err.bus e))
                  | Except.ok _ =>
                    match bus.writeB ENS160_I2CADDR ENS160_CMD_TEMPIN [74, 138] with
                    | Except.error e => (initFullTrace.take 12, Except.error (Err.bus e))
                    | Except.ok _ =>
                      match bus.writeB ENS160_I2CADDR ENS160_CMD_RHIN [100, 0] with
                      | Except.error e => (initFullTrace, Except.error (Err.bus e))
                      | Except.ok _ => (initFullTrace, Except.ok true) := by
  have hmI : MODE_IDLE ∈ VALID_MODES := by decide
  have hmS : MODE_STANDARD ∈ VALID_MODES := by decide
  have htI : MODE_IDLE.toNat = 1 := by decide
  have htS : MODE_STANDARD.toNat = 2 := by decide
  cases h1 : bus.writeB ENS160_I2CADDR ENS160_CMD_OPMODE [240] with
  | error e =>
      simp [init, run_bind, run_pure, reset_run, sleepM, h1, initFullTrace]
  | ok u1 =>
  cases h2 : bus.readB ENS160_I2CADDR ENS160_CMD_PARTID 2 with
  | error e =>
      simp [init, run_bind, run_pure, reset_run, check_run, sleepM, h1, h2, initFullTrace]
  | ok bs =>
  by_cases hv : readIntLE bs 2 = ENS160_PARTID
  case neg =>
      simp [init, run_bind, run_pure, reset_run, check_run, sleepM, h1, h2, hv, initFullTrace]
  case pos =>
  cases h3 : bus.writeB ENS160_I2CADDR ENS160_CMD_OPMODE [1] with
  | error e =>
      simp [init, run_bind, run_pure, reset_run, check_run, setMode_run, sleepM, hmI, htI,
        h1, h2, hv, h3, initFullTrace]
  | ok u3 =>
  cases h4 : bus.writeB ENS160_I2CADDR ENS160_CMD_COMMAND [0] with
  | error e =>
      simp [init, run_bind, run_pure, reset_run, check_run, setMode_run, clear_command_run,
        sleepM, hmI, htI, h1, h2, hv, h3, h4, COMMAND_NOP, COMMAND_CLRGPR, initFullTrace]
  | ok u4 =>
  cases h5 : bus.writeB ENS160_I2CADDR ENS160_CMD_COMMAND [204] with
  | error e =>
      simp [init, run_bind, run_pure, reset_run, check_run, setMode_run, clear_command_run,
        sleepM, hmI, htI, h1, h2, hv, h3, h4, h5, COMMAND_NOP, COMMAND_CLRGPR, initFullTrace]
  | ok u5 =>
  cases h6 : bus.writeB ENS160_I2CADDR ENS160_CMD_OPMODE [2] with
  | error e =>
      simp [init, run_bind, run_pure, reset_run, check_run, setMode_run, clear_command_run,
        sleepM, hmI, hmS, htI, htS, h1, h2, hv, h3, h4, h5, h6,
        COMMAND_NOP, COMMAND_CLRGPR, initFullTrace]
  | ok u6 =>
  cases h7 : bus.writeB ENS160_I2CADDR ENS160_CMD_TEMPIN [74, 138] with
  | error e =>
      simp [init, run_bind, run_pure, reset_run, check_run, setMode_run, clear_command_run,
        temperature_compensation_run, temp25_bytes, sleepM, hmI, hmS, htI, htS,
        h1, h2, hv, h3, h4, h5, h6, h7, COMMAND_NOP, COMMAND_CLRGPR, initFullTrace]
  | ok u7 =>
  cases h8 : bus.writeB ENS160_I2CADDR ENS160_CMD_RHIN [100, 0] with
  | error e =>
      simp [init, run_bind, run_pure, reset_run, check_run, setMode_run, clear_command_run,
        temperature_compensation_run, humidity_compensation_run, temp25_bytes,
        hum50_bytes, sleepM, hmI, hmS, htI, htS, h1, h2, hv, h3, h4, h5, h6, h7, h8,
        COMMAND_NOP, COMMAND_CLRGPR, initFullTrace]
  | ok u8 =>
      simp [init, run_bind, run_pure, reset_run, check_run, setMode_run,
        clear_command_run, temperature_compensation_run, humidity_compensation_run,
        temp25_bytes, hum50_bytes, sleepM, hmI, hmS, htI, htS,
        h1, h2, hv, h3, h4, h5, h6, h7, h8, COMMAND_NOP, COMMAND_CLRGPR, initFullTrace]

/-! ## Further helpers -/

/-- The write events of a trace. -/
def writesOf (tr : List Ev) : List Ev :=
  tr.filter fun e =>
    match e with
    | Ev.write _ _ _ => true
    | _ => false

theorem natHexDigitsAux_zero (f : Nat) : natHexDigitsAux f 0 = [] := by
  cases f <;> rfl

theorem natHexDigitsAux_step (f n : Nat) (hf : 0 < f) (hn : 0 < n) :
    natHexDigitsAux f n = natHexDigitsAux (f - 1) (n / 16) ++ [n % 16] := by
  cases f with
  | zero => omega
  | succ f =>
      cases n with
      | zero => omega
      | succ n => rfl

/-- A value with exactly four hex digits renders as those four digits, most
significant first. -/
theorem natHexDigits_four (n : Nat) (h1 : 4096 ≤ n) (h2 : n < 65536) :
    natHexDigits n = [n / 4096, n / 256 % 16, n / 16 % 16, n % 16] := by
  rw [natHexDigits, if_neg (by omega)]
  rw [natHexDigitsAux_step n n (by omega) (by omega)]
  rw [natHexDigitsAux_step _ _ (by omega) (by omega)]
  rw [natHexDigitsAux_step _ _ (by omega) (by omega)]
  rw [natHexDigitsAux_step _ _ (by omega) (by omega)]
  rw [show n / 16 / 16 / 16 / 16 = 0 by omega, natHexDigitsAux_zero]
  simp only [List.nil_append, List.cons_append, List.append_assoc, List.singleton_append,
    List.cons.injEq, and_true]
  omega

/-- In the four-hex-digit range, the hex-string Buffer conversion yields the
big-endian two-byte encoding. -/
theorem jsHexBuffer_four (k : Int) (h1 : 4096 ≤ k) (h2 : k ≤ 65535) :
    jsHexBuffer k = [k.toNat / 256, k.toNat % 256] := by
  have h1' : 4096 ≤ k.toNat := by omega
  have h2' : k.toNat < 65536 := by omega
  rw [jsHexBuffer, if_neg (by omega), natHexDigits_four _ h1' h2']
  simp only [hexPairsToBytes, List.cons.injEq, and_true]
  constructor <;> omega

theorem readIntLE_one (a : Nat) :
    readIntLE [a] 1 = if a < 128 then (a : Int) else (a : Int) - 256 := by
  simp only [readIntLE, leBytesVal, List.take]
  norm_num

theorem readIntLE_two (b0 b1 : Nat) :
    readIntLE [b0, b1] 2 =
      if b0 + 256 * b1 < 32768 then ((b0 + 256 * b1 : Nat) : Int)
      else ((b0 + 256 * b1 : Nat) : Int) - 65536 := by
  simp only [readIntLE, leBytesVal, List.take]
  norm_num

theorem readIntLE_partid (b0 b1 : Nat) (hb0 : b0 < 256) (hb1 : b1 < 256) :
    (readIntLE [b0, b1] 2 = ENS160_PARTID) ↔ (b0 = 96 ∧ b1 = 1) := by
  rw [readIntLE_two, ENS160_PARTID]
  split_ifs with h <;> constructor <;> intro hyp <;> omega

/-! ## Concrete buses used for witnesses and counterexamples -/

/-- Bus whose transfers all succeed, reads of register `reg` return
`bytes`, and all other reads return zero-filled buffers. -/
def constBus (reg : Nat) (bytes : List Nat) : Bus where
  readB := fun _ r len =>
    if r = reg then Except.ok bytes else Except.ok (List.replicate len 0)
  writeB := fun _ _ _ => Except.ok ()

/-- Bus on which every transfer succeeds and the identity register returns
the correct part-ID byte pair. -/
def goodBus : Bus := constBus ENS160_CMD_PARTID [0x60, 0x01]

/-- Bus on which every transfer succeeds and every read returns zeros. -/
def zeroBus : Bus where
  readB := fun _ _ len => Except.ok (List.replicate len 0)
  writeB := fun _ _ _ => Except.ok ()

/-- Bus on which the mode register reads back Standard (2) and the
general-purpose bank read fails with transport error 7; everything else
succeeds. -/
def fwFailBus : Bus where
  readB := fun _ reg len =>
    if reg = ENS160_CMD_READGPR then Except.error 7
    else if reg = ENS160_CMD_OPMODE then Except.ok [2]
    else Except.ok (List.replicate len 0)
  writeB := fun _ _ _ => Except.ok ()

/-- Bus serving fixed AQI, ECO2 and TVOC measurement bytes. -/
def measBus : Bus where
  readB := fun _ reg len =>
    if reg = ENS160_CMD_AQI then Except.ok [3]
    else if reg = ENS160_CMD_ECO2 then Except.ok [144, 1]
    else if reg = ENS160_CMD_TVOC then Except.ok [0, 128]
    else Except.ok (List.replicate len 0)
  writeB := fun _ _ _ => Except.ok ()

/-! ## Claims -/

/-- C1: on every bus, the trace of bus-visible steps `init` performs is an
initial segment of the canonical sequence — startup wait, setMode(Reset),
check's identity read, setMode(Idle), the clear-command exchange,
setMode(Standard), then the default temperature and humidity compensation
writes, with the mode writes in the order Reset, Idle, Standard and the
clear-command writes between the Idle and Standard writes — so a failure at
any step prevents every later step's bus operations; and when `init`
succeeds the trace is exactly that sequence, with no other step. -/
theorem init_trace_order (bus : Bus) :
    (∃ rest, (init bus).1 ++ rest = initFullTrace) ∧
      ((init bus).2 = Except.ok true → (init bus).1 = initFullTrace) := by
  rw [init_run]
  cases h1 : bus.writeB ENS160_I2CADDR ENS160_CMD_OPMODE [240] with
  | error e => exact ⟨⟨initFullTrace.drop 2, rfl⟩, by simp⟩
  | ok u1 =>
  cases h2 : bus.readB ENS160_I2CADDR ENS160_CMD_PARTID 2 with
  | error e => exact ⟨⟨initFullTrace.drop 4, rfl⟩, by simp⟩
  | ok bs =>
  by_cases hv : readIntLE bs 2 = ENS160_PARTID
  case neg =>
      simp only [if_pos hv]
      exact ⟨⟨initFullTrace.drop 4, rfl⟩, by simp⟩
  case pos =>
  simp only [if_neg (not_not_intro hv)]
  cases h3 : bus.writeB ENS160_I2CADDR ENS160_CMD_OPMODE [1] with
  | error e => exact ⟨⟨initFullTrace.drop 5, rfl⟩, by simp⟩
  | ok u3 =>
  cases h4 : bus.writeB ENS160_I2CADDR ENS160_CMD_COMMAND [0] with
  | error e => exact ⟨⟨initFullTrace.drop 7, rfl⟩, by simp⟩
  | ok u4 =>
  cases h5 : bus.writeB ENS160_I2CADDR ENS160_CMD_COMMAND [204] with
  | error e => exact ⟨⟨initFullTrace.drop 8, rfl⟩, by simp⟩
  | ok u5 =>
  cases h6 : bus.writeB ENS160_I2CADDR ENS160_CMD_OPMODE [2] with
  | error e => exact ⟨⟨initFullTrace.drop 10, rfl⟩, by simp⟩
  | ok u6 =>
  cases h7 : bus.writeB ENS160_I2CADDR ENS160_CMD_TEMPIN [74, 138] with
  | error e => exact ⟨⟨initFullTrace.drop 12, rfl⟩, by simp⟩
  | ok u7 =>
  cases h8 : bus.writeB ENS160_I2CADDR ENS160_CMD_RHIN [100, 0] with
  | error e => exact ⟨⟨[], by simp⟩, by simp⟩
  | ok u8 => exact ⟨⟨[], by simp⟩, fun _ => rfl⟩

/-- C1 witness: on a bus whose transfers all succeed and whose identity
register reads back the part ID, `init` succeeds and its trace is exactly
the canonical sequence. -/
theorem init_trace_order_witness :
    (init goodBus).1 = initFullTrace ∧ (init goodBus).2 = Except.ok true := by
  have h : init goodBus = (initFullTrace, Except.ok true) := by
    rw [init_run]; decide
  exact ⟨(init_trace_order goodBus).2 (by rw [h]), by rw [h]⟩

/-- C2: a target mode outside VALID_MODES makes setMode fail with the
InvalidMode error having touched the bus in no way (empty trace); a target
inside the set makes it perform exactly one write, of the single byte equal
to that mode value, to the OPMODE register. -/
theorem setMode_validation (m : Int) (bus : Bus) :
    (m ∉ VALID_MODES → setMode m bus = ([], Except.error (Err.invalidMode m))) ∧
      (m ∈ VALID_MODES →
        writesOf (setMode m bus).1 =
          [Ev.write ENS160_I2CADDR ENS160_CMD_OPMODE [m.toNat]]) := by
  constructor
  · intro hm
    rw [setMode_run, if_neg hm]
  · intro hm
    rw [setMode_run, if_pos hm]
    cases h : bus.writeB ENS160_I2CADDR ENS160_CMD_OPMODE [m.toNat] <;>
      simp [writesOf]

/-- C2 witness: setMode 3 fails with InvalidMode and an empty trace;
setMode 0xF0 performs exactly the one-byte mode write. -/
theorem setMode_validation_witness :
    setMode 3 zeroBus = ([], Except.error (Err.invalidMode 3)) ∧
      writesOf (setMode 240 zeroBus).1 =
        [Ev.write ENS160_I2CADDR ENS160_CMD_OPMODE [240]] := by
  refine ⟨(setMode_validation 3 zeroBus).1 (by decide), ?_⟩
  have h := (setMode_validation 240 zeroBus).2 (by decide)
  simpa using h

theorem round_temp25 : (round (((25 : ℚ) + 273.15) * 64 : ℚ) : ℤ) = 19082 := by
  rw [round_eq]
  norm_num [Int.floor_eq_iff]

theorem round_hum50 : (round ((50 : ℚ) * 512 : ℚ) : ℤ) = 25600 := by
  rw [round_eq]
  norm_num [Int.floor_eq_iff]

/-- C3 counterexample: at 25 °C the code writes the bytes 74, 138 (the
big-endian rendering of ceil((25 + 273.15) × 64) = 19082 = 0x4A8A) to the
temperature-input register, while the claimed little-endian encoding of
round((25 + 273.15) × 64) is 138, 74; likewise at 50 %RH the code writes
100, 0 where the claimed little-endian encoding is 0, 100. -/
theorem compensation_encoding_counterexample :
    (temperature_compensation 25 zeroBus).1 =
      [Ev.write ENS160_I2CADDR ENS160_CMD_TEMPIN [74, 138]] ∧
    specTempCompBytes 25 = [138, 74] ∧
    ([74, 138] : List Nat) ≠ [138, 74] ∧
    (humidity_compensation 50 zeroBus).1 =
      [Ev.write ENS160_I2CADDR ENS160_CMD_RHIN [100, 0]] ∧
    specHumCompBytes 50 = [0, 100] ∧
    ([100, 0] : List Nat) ≠ [0, 100] := by
  refine ⟨?_, ?_, by decide, ?_, ?_, by decide⟩
  · rw [temperature_compensation_run, temp25_bytes]; decide
  · rw [specTempCompBytes, round_temp25]; decide
  · rw [humidity_compensation_run, hum50_bytes]; decide
  · rw [specHumCompBytes, round_hum50]; decide

/-- C3 amended: whenever the encoded value has exactly four hex digits
(4096 ≤ value ≤ 65535), temperature_compensation writes the two-byte
BIG-endian encoding of `ceil((t + 273.15) × 64)` to the temperature-input
register, and humidity_compensation writes the two-byte BIG-endian
encoding of `ceil(h × 512)` to the humidity-input register (the source
renders the value as a hex string and decodes digit pairs to bytes, so the
most significant byte comes first and `Math.ceil`, not round, is used). -/
theorem compensation_bytes_bigendian (t h : ℚ) (bus : Bus)
    (ht1 : 4096 ≤ ⌈(t + 273.15) * 64⌉) (ht2 : ⌈(t + 273.15) * 64⌉ ≤ 65535)
    (hh1 : 4096 ≤ ⌈h * 512⌉) (hh2 : ⌈h * 512⌉ ≤ 65535) :
    (temperature_compensation t bus).1 =
      [Ev.write ENS160_I2CADDR ENS160_CMD_TEMPIN
        [(⌈(t + 273.15) * 64⌉ : ℤ).toNat / 256, (⌈(t + 273.15) * 64⌉ : ℤ).toNat % 256]] ∧
    (humidity_compensation h bus).1 =
      [Ev.write ENS160_I2CADDR ENS160_CMD_RHIN
        [(⌈h * 512⌉ : ℤ).toNat / 256, (⌈h * 512⌉ : ℤ).toNat % 256]] := by
  constructor
  · rw [temperature_compensation_run, jsHexBuffer_four _ ht1 ht2]
    cases hw : bus.writeB ENS160_I2CADDR ENS160_CMD_TEMPIN
      [(⌈(t + 273.15) * 64⌉ : ℤ).toNat / 256, (⌈(t + 273.15) * 64⌉ : ℤ).toNat % 256] <;> rfl
  · rw [humidity_compensation_run, jsHexBuffer_four _ hh1 hh2]
    cases hw : bus.writeB ENS160_I2CADDR ENS160_CMD_RHIN
      [(⌈h * 512⌉ : ℤ).toNat / 256, (⌈h * 512⌉ : ℤ).toNat % 256] <;> rfl

/-- C3 amended witness: at 25 °C (value 19082 = 0x4A8A) the bytes are
74, 138 and at 50 %RH (value 25600 = 0x6400) the bytes are 100, 0. -/
theorem compensation_bytes_bigendian_witness :
    (temperature_compensation 25 zeroBus).1 =
      [Ev.write ENS160_I2CADDR ENS160_CMD_TEMPIN [74, 138]] ∧
    (humidity_compensation 50 zeroBus).1 =
      [Ev.write ENS160_I2CADDR ENS160_CMD_RHIN [100, 0]] := by
  have h := compensation_bytes_bigendian 25 50 zeroBus
    (by rw [ceil_temp25]; decide) (by rw [ceil_temp25]; decide)
    (by rw [ceil_hum50]; decide) (by rw [ceil_hum50]; decide)
  rw [ceil_temp25, ceil_hum50] at h
  exact h

/-- C4 counterexample: on the claim's own example byte 0b10010000 = 144 the
code decodes the validity status as Normal, not Warmup (the source reads
the single binary-string character at index 4, which is bit 3 = 0); and on
byte 0b00001000 = 8, whose bits 3-2 hold the value 2, the claimed mapping
gives Startup while the code yields Warmup (bit 3 = 1). -/
theorem status_decode_counterexample :
    (status (constBus ENS160_CMD_STATUS [144])).2 =
      Except.ok ⟨true, false, StatusType.normal⟩ ∧
    StatusType.normal ≠ StatusType.warmup ∧
    (status (constBus ENS160_CMD_STATUS [8])).2 =
      Except.ok ⟨false, false, StatusType.warmup⟩ ∧
    specValidity 8 = StatusType.startup ∧
    StatusType.warmup ≠ StatusType.startup := by
  decide

/-- C4 amended: for every status byte b, the snapshot's opmode flag is
bit 7 of b and its error flag is bit 6 of b as claimed, but the validity
status is determined by bit 3 alone: 0 decodes to Normal and 1 to Warmup
(Startup and Invalid are never produced); in particular 0b10010000 decodes
to opmode true, error false, status Normal. -/
theorem status_decode_amended (bus : Bus) (b : Nat) (hb : b < 256)
    (hr : bus.readB ENS160_I2CADDR ENS160_CMD_STATUS 1 = Except.ok [b]) :
    (status bus).2 =
      Except.ok ⟨b.testBit 7, b.testBit 6,
        if b.testBit 3 then StatusType.warmup else StatusType.normal⟩ := by
  have key : ∀ c < 256, decodeStatusByte c =
      ⟨c.testBit 7, c.testBit 6,
        if c.testBit 3 then StatusType.warmup else StatusType.normal⟩ := by
    set_option maxRecDepth 4000 in decide
  simp [status, run_bind, busRead, run_pure, hr, key b hb]

/-- C4 amended witness: byte 144 = 0b10010000 decodes to opmode true,
error false, status Normal. -/
theorem status_decode_amended_witness :
    (status (constBus ENS160_CMD_STATUS [144])).2 =
      Except.ok ⟨true, false, StatusType.normal⟩ := by
  have h := status_decode_amended (constBus ENS160_CMD_STATUS [144]) 144
    (by decide) (by decide)
  exact h.trans (by decide)

/-- C5: on a bus where the initial mode read succeeds (Standard, byte 2)
but the later general-purpose-bank read fails, firmware_version fails with
the propagated transport error, its trace contains the write that forced
Idle mode, and NO write restoring the saved mode (byte 2) was ever issued:
the restore is skipped on failing exit paths, contradicting the claimed
non-skippable cleanup. -/
theorem firmware_version_skips_restore :
    (firmware_version fwFailBus).2 = Except.error (Err.bus 7) ∧
    Ev.write ENS160_I2CADDR ENS160_CMD_OPMODE [1] ∈ (firmware_version fwFailBus).1 ∧
    Ev.write ENS160_I2CADDR ENS160_CMD_OPMODE [2] ∉ (firmware_version fwFailBus).1 := by
  decide

/-- C6: when the identity read returns the byte pair b0, b1, check's trace
is exactly the one two-byte read of the identity register (no bus write),
and it succeeds precisely on the pair 0x60, 0x01 (little-endian 0x0160),
failing with the IdentityMismatch error on every other pair. -/
theorem check_identity (bus : Bus) (b0 b1 : Nat) (hb0 : b0 < 256) (hb1 : b1 < 256)
    (hr : bus.readB ENS160_I2CADDR ENS160_CMD_PARTID 2 = Except.ok [b0, b1]) :
    (check bus).1 = [Ev.read ENS160_I2CADDR ENS160_CMD_PARTID 2] ∧
    writesOf (check bus).1 = [] ∧
    (if b0 = 96 ∧ b1 = 1 then (check bus).2 = Except.ok true
      else (check bus).2 = Except.error Err.identityMismatch) := by
  rw [check_run, hr]
  dsimp only
  by_cases hc : b0 = 96 ∧ b1 = 1
  · have hv : readIntLE [b0, b1] 2 = ENS160_PARTID := (readIntLE_partid b0 b1 hb0 hb1).2 hc
    rw [if_neg (not_not_intro hv), if_pos hc]
    exact ⟨rfl, by decide, rfl⟩
  · have hv : readIntLE [b0, b1] 2 ≠ ENS160_PARTID := fun h =>
      hc ((readIntLE_partid b0 b1 hb0 hb1).1 h)
    rw [if_pos hv, if_neg hc]
    exact ⟨rfl, by decide, rfl⟩

/-- C6 witness: the pair 0x60, 0x01 makes check succeed with the single
identity read as its whole trace. -/
theorem check_identity_witness :
    (check goodBus).1 = [Ev.read ENS160_I2CADDR ENS160_CMD_PARTID 2] ∧
    (check goodBus).2 = Except.ok true := by
  have h := check_identity goodBus 96 1 (by decide) (by decide) (by decide)
  exact ⟨h.1, by simpa using h.2.2⟩

/-- C7 counterexample: a two-byte ECO2 read of 0x00, 0x80 yields -32768,
not the claimed unsigned value 32768: the source decodes measurements with
the SIGNED `readIntLE`, so returned values can be negative. -/
theorem measurement_signed_counterexample :
    (ECO2 (constBus ENS160_CMD_ECO2 [0, 128])).2 = Except.ok (-32768) ∧
    ((-32768 : Int) ≠ 32768) := by
  decide

/-- C7 amended: AQI reads one byte and ECO2 and TVOC read two bytes from
their registers, and each returns the SIGNED (two's complement)
little-endian integer of that width with no range validation: a value whose
top bit is set comes back negative. -/
theorem measurement_reads_signed (bus : Bus) (a b0 b1 c0 c1 : Nat)
    (ha : a < 256) (hb0 : b0 < 256) (hb1 : b1 < 256) (hc0 : c0 < 256) (hc1 : c1 < 256)
    (hra : bus.readB ENS160_I2CADDR ENS160_CMD_AQI 1 = Except.ok [a])
    (hrb : bus.readB ENS160_I2CADDR ENS160_CMD_ECO2 2 = Except.ok [b0, b1])
    (hrc : bus.readB ENS160_I2CADDR ENS160_CMD_TVOC 2 = Except.ok [c0, c1]) :
    (AQI bus).1 = [Ev.read ENS160_I2CADDR ENS160_CMD_AQI 1] ∧
    (AQI bus).2 = Except.ok (if a < 128 then (a : Int) else (a : Int) - 256) ∧
    (ECO2 bus).1 = [Ev.read ENS160_I2CADDR ENS160_CMD_ECO2 2] ∧
    (ECO2 bus).2 = Except.ok (if b0 + 256 * b1 < 32768 then ((b0 + 256 * b1 : Nat) : Int)
      else ((b0 + 256 * b1 : Nat) : Int) - 65536) ∧
    (TVOC bus).1 = [Ev.read ENS160_I2CADDR ENS160_CMD_TVOC 2] ∧
    (TVOC bus).2 = Except.ok (if c0 + 256 * c1 < 32768 then ((c0 + 256 * c1 : Nat) : Int)
      else ((c0 + 256 * c1 : Nat) : Int) - 65536) := by
  refine ⟨?_, ?_, ?_, ?_, ?_, ?_⟩ <;>
    simp [AQI, ECO2, TVOC, run_bind, busRead, run_pure, hra, hrb, hrc,
      readIntLE_one, readIntLE_two]

/-- C7 amended witness: AQI byte 3 yields 3, ECO2 bytes 144, 1 yield 400,
and TVOC bytes 0, 128 yield -32768. -/
theorem measurement_reads_signed_witness :
    (AQI measBus).2 = Except.ok 3 ∧
    (ECO2 measBus).2 = Except.ok 400 ∧
    (TVOC measBus).2 = Except.ok (-32768) := by
  have h := measurement_reads_signed measBus 3 144 1 0 128
    (by decide) (by decide) (by decide) (by decide) (by decide)
    (by decide) (by decide) (by decide)
  refine ⟨h.2.1.trans (by decide), h.2.2.2.1.trans (by decide), h.2.2.2.2.2.trans (by decide)⟩

/-- C8 counterexample: a mode-register read-back of the Reset byte 0xF0 is
returned by getMode as -16, not as 0xF0 = 240: the source decodes the byte
with the signed `readInt8`. -/
theorem getMode_signed_counterexample :
    (getMode (constBus ENS160_CMD_OPMODE [240])).2 = Except.ok (-16) ∧
    ((-16 : Int) ≠ 240) := by
  decide

/-- C8 amended: for every byte b the mode read returns, getMode yields its
signed 8-bit reinterpretation — b itself for b < 128, b - 256 otherwise —
unvalidated against the mode enumeration; in particular 0xF0 reads back as
-16. -/
theorem getMode_returns_signed_byte (bus : Bus) (b : Nat) (hb : b < 256)
    (hr : bus.readB ENS160_I2CADDR ENS160_CMD_OPMODE 1 = Except.ok [b]) :
    (getMode bus).2 = Except.ok (if b < 128 then (b : Int) else (b : Int) - 256) := by
  simp [getMode_run, hr, readInt8]

/-- C8 amended witness: the Reset byte 0xF0 = 240 reads back as -16. -/
theorem getMode_returns_signed_byte_witness :
    (getMode (constBus ENS160_CMD_OPMODE [240])).2 = Except.ok (-16) := by
  have h := getMode_returns_signed_byte (constBus ENS160_CMD_OPMODE [240]) 240
    (by decide) (by decide)
  exact h.trans (by decide)

/-- C9 counterexample: on a bus whose identity register reads back 0x00,
0x00 (all transfers succeeding), init fails with the IdentityMismatch
error thrown inside check, which is not the DeviceNotDetected error the
claim names. -/
theorem init_detect_error_counterexample :
    (init zeroBus).2 = Except.error Err.identityMismatch ∧
    Err.identityMismatch ≠ Err.deviceNotDetected := by
  constructor
  · rw [init_run]; decide
  · decide

/-- C9 amended: when the identity check fails during initialization (the
reset write succeeded and the identity read returned a non-matching byte
pair), init fails with the IdentityMismatch error propagated from check;
the init-specific DeviceNotDetected error is unreachable on every bus,
because check never resolves to false. -/
theorem init_identity_mismatch (bus : Bus) (b0 b1 : Nat)
    (hb0 : b0 < 256) (hb1 : b1 < 256)
    (hw : bus.writeB ENS160_I2CADDR ENS160_CMD_OPMODE [240] = Except.ok ())
    (hr : bus.readB ENS160_I2CADDR ENS160_CMD_PARTID 2 = Except.ok [b0, b1])
    (hne : ¬(b0 = 96 ∧ b1 = 1)) :
    (init bus).2 = Except.error Err.identityMismatch ∧
    ∀ bus2 : Bus, (init bus2).2 ≠ Except.error Err.deviceNotDetected := by
  constructor
  · have hv : readIntLE [b0, b1] 2 ≠ ENS160_PARTID := fun h =>
      hne ((readIntLE_partid b0 b1 hb0 hb1).1 h)
    rw [init_run, hw, hr]
    dsimp only
    rw [if_pos hv]
  · intro bus2
    rw [init_run]
    repeat' split
    all_goals simp

/-- C9 amended witness: the all-zero bus makes init fail with
IdentityMismatch. -/
theorem init_identity_mismatch_witness :
    (init zeroBus).2 = Except.error Err.identityMismatch := by
  exact (init_identity_mismatch zeroBus 0 0 (by decide) (by decide) rfl rfl
    (by decide)).1

/-- C10: every boolean-returning operation that completes does so with
true — none of init, reset, setMode, check, clear_command,
temperature_compensation, humidity_compensation ever resolves to false —
so failure is signalled exclusively by an error; consequently init's
false-branch throw of DeviceNotDetected is unreachable on every bus. -/
theorem bool_results_never_false (bus : Bus) (m : Int) (t h : ℚ) :
    (init bus).2 ≠ Except.ok false ∧
    (reset bus).2 ≠ Except.ok false ∧
    (setMode m bus).2 ≠ Except.ok false ∧
    (check bus).2 ≠ Except.ok false ∧
    (clear_command bus).2 ≠ Except.ok false ∧
    (temperature_compensation t bus).2 ≠ Except.ok false ∧
    (humidity_compensation h bus).2 ≠ Except.ok false ∧
    (init bus).2 ≠ Except.error Err.deviceNotDetected := by
  refine ⟨?_, ?_, ?_, ?_, ?_, ?_, ?_, ?_⟩
  · rw [init_run]; repeat' split
    all_goals simp
  · rw [reset_run]; split <;> simp
  · rw [setMode_run]; repeat' split
    all_goals simp
  · rw [check_run]; repeat' split
    all_goals simp
  · rw [clear_command_run]; repeat' split
    all_goals simp
  · rw [temperature_compensation_run]; split <;> simp
  · rw [humidity_compensation_run]; split <;> simp
  · rw [init_run]; repeat' split
    all_goals simp

end ENS160
